import Mathlib

/-!
Shallow embedding of `scripts/analyze_benchmarks.py`, a benchmark-report
script that loads criterion benchmark results from a directory tree,
analyzes four categories (startup time, execution latency, memory
overhead, concurrent operations) against fixed thresholds, and exits
with code 0 or 1.

Numeric values (nanosecond point estimates, millisecond conversions) are
modelled with exact rationals; the Python code uses IEEE doubles, but
every comparison the script performs is on values where the two agree on
all the inputs treated here.
-/

set_option autoImplicit false

/-- Substring test on character lists: does the second list contain the
first as a contiguous sublist?  Models the Python `in` operator on
strings (`sub in s`). -/
def listContainsSub (sub : List Char) : List Char → Bool
  | [] => sub.isEmpty
  | c :: cs => List.isPrefixOf sub (c :: cs) || listContainsSub sub cs

/-- Model of Python `sub in s` for strings. -/
def strContains (s sub : String) : Bool :=
  listContainsSub sub.data s.data

/-- The part of a parsed `estimates.json` record that the script reads:
the `mean` object with its `point_estimate` field.  The field is
`Option` because the Python reads it with `.get('point_estimate', 0)`. -/
structure MeanObj where
  point_estimate : Option ℚ

/-- A parsed benchmark record (`data` in the Python).  Only the `mean`
object is ever accessed; it is `Option` because the Python reads it with
`data.get('mean', \x7b\x7d)`. -/
structure BenchData where
  mean : Option MeanObj

/-- The mapping from benchmark name (subdirectory name) to parsed
record, in insertion order: the `results` dict of the Python script. -/
abbrev ResultSet := List (String × BenchData)

/-- The fixed threshold table `THRESHOLDS` of the script. -/
structure Thresholds where
  app_startup_time_ms : Nat
  tool_execution_latency_ms : Nat
  memory_overhead_percent : Nat

/-- Performance thresholds (from requirements): 2 s startup, 100 ms
latency, 10 % memory overhead. -/
def THRESHOLDS : Thresholds :=
  { app_startup_time_ms := 2000
    tool_execution_latency_ms := 100
    memory_overhead_percent := 10 }

/-- Model of `data.get('mean', \x7b\x7d).get('point_estimate', 0)`: a
missing `mean` object or a missing `point_estimate` field defaults to
0 nanoseconds. -/
def getMeanNs (d : BenchData) : ℚ :=
  match d.mean with
  | none => 0
  | some m => m.point_estimate.getD 0

/-- Model of `mean_time_ns / 1_000_000`: nanoseconds to milliseconds. -/
def nsToMs (ns : ℚ) : ℚ :=
  ns / 1000000

/-- Rounding of a rational to the nearest integer (halves up), written
so that the kernel can evaluate it: `⌊q + 1/2⌋` as an integer floor
division. -/
def ratRound (q : ℚ) : ℤ :=
  Int.fdiv (2 * q.num + (q.den : ℤ)) (2 * (q.den : ℤ))

/-- Model of the Python format `f"\x7bx:.2f\x7d"` applied to a rational:
round to two decimal places and print with exactly two fraction
digits. -/
def formatMs (q : ℚ) : String :=
  let cents : ℤ := ratRound (q * 100)
  let sign := if cents < 0 then "-" else ""
  let n := cents.natAbs
  let frac := n % 100
  sign ++ toString (n / 100) ++ "." ++ (if frac < 10 then "0" else "") ++ toString frac

/-- One report line of the startup/latency analyzers:
`  \x7bstatus\x7d \x7bbench_name\x7d: \x7bmean_time_ms:.2f\x7dms (threshold: \x7bthreshold\x7dms)`. -/
def statusLine (passed : Bool) (name : String) (ms : ℚ) (threshold : Nat) : String :=
  "  " ++ (if passed then "✓ PASS" else "✗ FAIL") ++ " " ++ name ++ ": " ++
    formatMs ms ++ "ms (threshold: " ++ toString threshold ++ "ms)"

/-- The per-entry pass test shared by the startup and latency loop
bodies: extract the nanosecond point estimate, convert to milliseconds,
compare strictly against the threshold. -/
def analyzeEntryPass (thresholdMs : Nat) (p : String × BenchData) : Bool :=
  decide (nsToMs (getMeanNs p.2) < (thresholdMs : ℚ))

/-- The per-entry message line shared by the startup and latency loop
bodies. -/
def analyzeEntryLine (thresholdMs : Nat) (p : String × BenchData) : String :=
  statusLine (analyzeEntryPass thresholdMs p) p.1 (nsToMs (getMeanNs p.2)) thresholdMs

/-- Model of `analyze_startup_time`: filter entries whose name contains
`app_sandbox_startup`; if none, fail with a fixed message; otherwise
fold the loop accumulating `all_pass` and the message lines. -/
def analyze_startup_time (results : ResultSet) : Bool × String :=
  let startup_benchmarks := results.filter (fun p => strContains p.1 "app_sandbox_startup")
  if startup_benchmarks.isEmpty then
    (false, "No startup benchmarks found")
  else
    let r := startup_benchmarks.foldl
      (fun acc p =>
        (acc.1 && analyzeEntryPass THRESHOLDS.app_startup_time_ms p,
         acc.2 ++ [analyzeEntryLine THRESHOLDS.app_startup_time_ms p]))
      (true, [])
    (r.1, String.intercalate "\n" r.2)

/-- Model of `analyze_execution_latency`: like the startup analyzer with
substring `tool_execution_latency` and the 100 ms threshold. -/
def analyze_execution_latency (results : ResultSet) : Bool × String :=
  let latency_benchmarks := results.filter (fun p => strContains p.1 "tool_execution_latency")
  if latency_benchmarks.isEmpty then
    (false, "No execution latency benchmarks found")
  else
    let r := latency_benchmarks.foldl
      (fun acc p =>
        (acc.1 && analyzeEntryPass THRESHOLDS.tool_execution_latency_ms p,
         acc.2 ++ [analyzeEntryLine THRESHOLDS.tool_execution_latency_ms p]))
      (true, [])
    (r.1, String.intercalate "\n" r.2)

/-- Model of `analyze_memory_overhead`: if any entry name contains
`memory_overhead`, report pass with fixed explanatory text; the data
values are never read. -/
def analyze_memory_overhead (results : ResultSet) : Bool × String :=
  let memory_benchmarks := results.filter (fun p => strContains p.1 "memory_overhead")
  if memory_benchmarks.isEmpty then
    (false, "No memory overhead benchmarks found")
  else
    (true, String.intercalate "\n"
      ["  Note: Memory overhead analysis requires manual measurement",
       "  Use system monitoring tools to measure actual memory usage",
       "  Target: <" ++ toString THRESHOLDS.memory_overhead_percent ++ "% of host system"])

/-- One report line of the concurrency analyzer:
`  \x7bbench_name\x7d: \x7bmean_time_ms:.2f\x7dms`. -/
def concLine (p : String × BenchData) : String :=
  "  " ++ p.1 ++ ": " ++ formatMs (nsToMs (getMeanNs p.2)) ++ "ms"

/-- Model of `analyze_concurrent_performance`: if any entry name
contains `concurrent_operations`, report each matching entry value with
no threshold and pass unconditionally. -/
def analyze_concurrent_performance (results : ResultSet) : Bool × String :=
  let concurrent_benchmarks := results.filter (fun p => strContains p.1 "concurrent_operations")
  if concurrent_benchmarks.isEmpty then
    (false, "No concurrent operation benchmarks found")
  else
    (true, String.intercalate "\n"
      (concurrent_benchmarks.foldl (fun acc p => acc ++ [concLine p]) []))

/-- One immediate child of the criterion results directory, as the
loader sees it: its name, whether it is a directory, and the state of
its `base/estimates.json` file — `none` when the file does not exist,
`some (Except.error e)` when it exists but is not valid JSON (then
`json.load` raises with message `e`), `some (Except.ok d)` when it
parses to record `d`. -/
structure Child where
  name : String
  isDir : Bool
  estimatesFile : Option (Except String BenchData)

/-- The file-system state `main` observes: whether `target/criterion`
exists, and its immediate children when it does. -/
structure FS where
  criterionDirExists : Bool
  children : List Child

/-- Python dict assignment `results[key] = val`: replace the value when
the key is present, else append the binding. -/
def dictInsert (rs : ResultSet) (key : String) (val : BenchData) : ResultSet :=
  if rs.any (fun p => p.1 == key) then
    rs.map (fun p => if p.1 == key then (key, val) else p)
  else
    rs ++ [(key, val)]

/-- Whether the result set has an entry under the given name. -/
def hasKey (rs : ResultSet) (key : String) : Bool :=
  rs.any (fun p => p.1 == key)

/-- The loader loop of `load_benchmark_results`: walk the children in
order; skip non-directories and directories without the file; abort
with the parse error when the file is present but malformed; otherwise
record the parsed data under the child name. -/
def loadAux : ResultSet → List Child → Except String ResultSet
  | acc, [] => Except.ok acc
  | acc, c :: cs =>
    if c.isDir = false then
      loadAux acc cs
    else
      match c.estimatesFile with
      | none => loadAux acc cs
      | some (Except.error e) => Except.error e
      | some (Except.ok d) => loadAux (dictInsert acc c.name d) cs

/-- Model of `load_benchmark_results`: build the result set from the
children of the criterion directory, propagating any JSON parse
failure. -/
def load_benchmark_results (children : List Child) : Except String ResultSet :=
  loadAux [] children

/-- How a run of `main` ends: early exit because the results directory
is missing, early exit because the result set is empty, an uncaught
JSON parse exception, or the final summary verdict. -/
inductive RunOutcome where
  | exitMissingDir
  | exitEmpty
  | crash (msg : String)
  | finished (all_passed : Bool)
deriving DecidableEq

/-- Model of `main` (renamed because Lean reserves `main` for an IO
entry point): check the directory, load results, exit early on a
missing directory or empty result set, otherwise run the four analyzers
and fold only the startup and latency flags into `all_passed`. -/
def runMain (fs : FS) : RunOutcome :=
  if fs.criterionDirExists = false then
    RunOutcome.exitMissingDir
  else
    match load_benchmark_results fs.children with
    | Except.error e => RunOutcome.crash e
    | Except.ok results =>
      if results.isEmpty then
        RunOutcome.exitEmpty
      else
        let all_passed := true
        let s := analyze_startup_time results
        let all_passed := all_passed && s.1
        let l := analyze_execution_latency results
        let all_passed := all_passed && l.1
        let _m := analyze_memory_overhead results
        let _c := analyze_concurrent_performance results
        RunOutcome.finished all_passed

/-- The process exit status of each outcome.  CPython exits with status
1 when an exception propagates out of `main`, and the script calls
`sys.exit(1)` on the two early exits and on a failed summary. -/
def exitCode : RunOutcome → Nat
  | RunOutcome.exitMissingDir => 1
  | RunOutcome.exitEmpty => 1
  | RunOutcome.crash _ => 1
  | RunOutcome.finished b => if b then 0 else 1

/-- Convenience constructor for a record whose mean point estimate is
present with the given nanosecond value. -/
def mkNs (v : ℚ) : BenchData :=
  { mean := some { point_estimate := some v } }

/-- Concrete directory with one passing startup and one passing latency
benchmark. -/
def passChildren : List Child :=
  [{ name := "app_sandbox_startup", isDir := true,
     estimatesFile := some (Except.ok (mkNs 1000000000)) },
   { name := "tool_execution_latency", isDir := true,
     estimatesFile := some (Except.ok (mkNs 50000000)) }]

/-- The result set loaded from `passChildren`. -/
def passResults : ResultSet :=
  [("app_sandbox_startup", mkNs 1000000000), ("tool_execution_latency", mkNs 50000000)]

/-- Concrete child list under a missing root: it would crash the loader
if it were ever enumerated. -/
def missChildren : List Child :=
  [{ name := "app_sandbox_startup", isDir := true,
     estimatesFile := some (Except.error "Expecting value") }]

/-- Concrete directory holding only a memory benchmark. -/
def memOnlyChildren : List Child :=
  [{ name := "memory_overhead_x", isDir := true,
     estimatesFile := some (Except.ok (mkNs 5)) }]

/-- The result set loaded from `memOnlyChildren`. -/
def memOnlyResults : ResultSet :=
  [("memory_overhead_x", mkNs 5)]

/-- Concrete directory mixing a qualifying child, a plain file and an
empty directory. -/
def mixedChildren : List Child :=
  [{ name := "app_sandbox_startup", isDir := true,
     estimatesFile := some (Except.ok (mkNs 1)) },
   { name := "readme", isDir := false,
     estimatesFile := some (Except.ok (mkNs 2)) },
   { name := "empty_bench", isDir := true, estimatesFile := none }]

/-- Concrete directory with one malformed statistics file. -/
def badChildren : List Child :=
  [{ name := "app_sandbox_startup", isDir := true,
     estimatesFile := some (Except.error "Expecting value") }]

/-! ## Helper lemmas -/

/-- The startup/latency loop fold computes the AND of the per-entry pass
flags and appends the per-entry message lines. -/
theorem foldl_pass_line (threshold : Nat) (l : List (String × BenchData))
    (b : Bool) (msgs : List String) :
    l.foldl
      (fun acc p =>
        (acc.1 && analyzeEntryPass threshold p, acc.2 ++ [analyzeEntryLine threshold p]))
      (b, msgs) =
    (b && l.all (analyzeEntryPass threshold), msgs ++ l.map (analyzeEntryLine threshold)) := by
  induction l generalizing b msgs with
  | nil => simp
  | cons hd tl ih => simp [ih, Bool.and_assoc]

/-- The concurrency loop fold appends the per-entry lines. -/
theorem foldl_conc_line (l : List (String × BenchData)) (acc : List String) :
    l.foldl (fun acc p => acc ++ [concLine p]) acc = acc ++ l.map concLine := by
  induction l generalizing acc with
  | nil => simp
  | cons hd tl ih => simp [ih]

/-- A filter is empty exactly when no element satisfies the predicate. -/
theorem filter_isEmpty_eq {α : Type} (p : α → Bool) (l : List α) :
    (l.filter p).isEmpty = !l.any p := by
  induction l with
  | nil => rfl
  | cons a l ih =>
    by_cases h : p a = true
    · simp [List.filter_cons, List.any_cons, h]
    · have h' : p a = false := by simpa using h
      simp [List.filter_cons, List.any_cons, h', ih]

/-- Closed form of the startup analyzer in the non-empty case. -/
theorem analyze_startup_time_eq (results : ResultSet)
    (h : (results.filter (fun p => strContains p.1 "app_sandbox_startup")).isEmpty = false) :
    analyze_startup_time results =
      ((results.filter (fun p => strContains p.1 "app_sandbox_startup")).all
         (analyzeEntryPass THRESHOLDS.app_startup_time_ms),
       String.intercalate "\n"
         ((results.filter (fun p => strContains p.1 "app_sandbox_startup")).map
           (analyzeEntryLine THRESHOLDS.app_startup_time_ms))) := by
  simp [analyze_startup_time, h, foldl_pass_line]

/-- Closed form of the latency analyzer in the non-empty case. -/
theorem analyze_execution_latency_eq (results : ResultSet)
    (h : (results.filter (fun p => strContains p.1 "tool_execution_latency")).isEmpty = false) :
    analyze_execution_latency results =
      ((results.filter (fun p => strContains p.1 "tool_execution_latency")).all
         (analyzeEntryPass THRESHOLDS.tool_execution_latency_ms),
       String.intercalate "\n"
         ((results.filter (fun p => strContains p.1 "tool_execution_latency")).map
           (analyzeEntryLine THRESHOLDS.tool_execution_latency_ms))) := by
  simp [analyze_execution_latency, h, foldl_pass_line]

/-- Key membership after a dict assignment: the new key, plus everything
already present. -/
theorem hasKey_dictInsert (rs : ResultSet) (k : String) (v : BenchData) (n : String) :
    hasKey (dictInsert rs k v) n = true ↔ (hasKey rs n = true ∨ n = k) := by
  by_cases h : rs.any (fun p => p.1 == k) = true
  · have hk : ∃ q ∈ rs, q.1 = k := by simpa [List.any_eq_true] using h
    obtain ⟨q, hq, hqk⟩ := hk
    unfold dictInsert
    rw [if_pos h]
    simp only [hasKey, List.any_eq_true, List.mem_map]
    constructor
    · rintro ⟨x, ⟨p, hp, rfl⟩, hxn⟩
      by_cases hpk : (p.1 == k) = true
      · rw [if_pos hpk] at hxn
        exact Or.inr (beq_iff_eq.mp hxn).symm
      · rw [if_neg hpk] at hxn
        exact Or.inl ⟨p, hp, hxn⟩
    · rintro (⟨p, hp, hpn⟩ | rfl)
      · refine ⟨_, ⟨p, hp, rfl⟩, ?_⟩
        by_cases hpk : (p.1 == k) = true
        · rw [if_pos hpk]
          have h1 : p.1 = k := beq_iff_eq.mp hpk
          have h2 : p.1 = n := beq_iff_eq.mp hpn
          exact beq_iff_eq.mpr (h1 ▸ h2)
        · rw [if_neg hpk]
          exact hpn
      · refine ⟨_, ⟨q, hq, rfl⟩, ?_⟩
        have hb : (q.1 == n) = true := beq_iff_eq.mpr hqk
        rw [if_pos hb]
        exact beq_iff_eq.mpr rfl
  · unfold dictInsert
    rw [if_neg h]
    simp only [hasKey, List.any_eq_true, List.mem_append, List.mem_singleton]
    constructor
    · rintro ⟨x, hx | rfl, hxn⟩
      · exact Or.inl ⟨x, hx, hxn⟩
      · exact Or.inr (beq_iff_eq.mp hxn).symm
    · rintro (⟨p, hp, hpn⟩ | rfl)
      · exact ⟨p, Or.inl hp, hpn⟩
      · exact ⟨(n, v), Or.inr rfl, beq_iff_eq.mpr rfl⟩

/-- Splitting an existential over a cons list. -/
theorem exists_mem_cons {α : Type} (P : α → Prop) (a : α) (l : List α) :
    (∃ x ∈ a :: l, P x) ↔ P a ∨ ∃ x ∈ l, P x := by
  constructor
  · rintro ⟨x, hx, hPx⟩
    rcases List.mem_cons.mp hx with rfl | hxl
    · exact Or.inl hPx
    · exact Or.inr ⟨x, hxl, hPx⟩
  · rintro (h | ⟨x, hx, hPx⟩)
    · exact ⟨a, List.mem_cons_self a l, h⟩
    · exact ⟨x, List.mem_cons_of_mem a hx, hPx⟩

/-- Loader equation: a non-directory child is skipped. -/
theorem loadAux_cons_notdir (acc : ResultSet) (c : Child) (cs : List Child)
    (hd : c.isDir = false) : loadAux acc (c :: cs) = loadAux acc cs := by
  simp [loadAux, hd]

/-- Loader equation: a directory without the statistics file is skipped. -/
theorem loadAux_cons_nofile (acc : ResultSet) (c : Child) (cs : List Child)
    (hd : c.isDir = true) (hf : c.estimatesFile = none) :
    loadAux acc (c :: cs) = loadAux acc cs := by
  simp [loadAux, hd, hf]

/-- Loader equation: a malformed statistics file aborts the walk with the
parse error. -/
theorem loadAux_cons_badfile (acc : ResultSet) (c : Child) (cs : List Child) (e : String)
    (hd : c.isDir = true) (hf : c.estimatesFile = some (Except.error e)) :
    loadAux acc (c :: cs) = Except.error e := by
  simp [loadAux, hd, hf]

/-- Loader equation: a parseable statistics file is recorded under the
child's name. -/
theorem loadAux_cons_okfile (acc : ResultSet) (c : Child) (cs : List Child) (d : BenchData)
    (hd : c.isDir = true) (hf : c.estimatesFile = some (Except.ok d)) :
    loadAux acc (c :: cs) = loadAux (dictInsert acc c.name d) cs := by
  simp [loadAux, hd, hf]

/-- Key membership in a successful loader walk: the keys of the
accumulator together with the names of the qualifying children. -/
theorem loadAux_hasKey (cs : List Child) (acc rs : ResultSet) (n : String)
    (h : loadAux acc cs = Except.ok rs) :
    hasKey rs n = true ↔
      (hasKey acc n = true ∨
        ∃ c ∈ cs, c.name = n ∧ c.isDir = true ∧ ∃ d, c.estimatesFile = some (Except.ok d)) := by
  induction cs generalizing acc with
  | nil =>
    rw [show loadAux acc [] = Except.ok acc from rfl] at h
    cases h
    simp
  | cons c cs ih =>
    cases hdir : c.isDir with
    | false =>
      rw [loadAux_cons_notdir acc c cs hdir] at h
      rw [ih acc h, exists_mem_cons]
      have hPc : ¬(c.name = n ∧ c.isDir = true ∧ ∃ d, c.estimatesFile = some (Except.ok d)) := by
        rintro ⟨-, h2, -⟩
        rw [hdir] at h2
        exact Bool.false_ne_true h2
      simp [hPc]
    | true =>
      cases hfe : c.estimatesFile with
      | none =>
        rw [loadAux_cons_nofile acc c cs hdir hfe] at h
        rw [ih acc h, exists_mem_cons]
        have hPc : ¬(c.name = n ∧ c.isDir = true ∧ ∃ d, c.estimatesFile = some (Except.ok d)) := by
          rintro ⟨-, -, d, hd2⟩
          rw [hfe] at hd2
          exact Option.noConfusion hd2
        simp [hPc]
      | some ef =>
        cases ef with
        | error e =>
          rw [loadAux_cons_badfile acc c cs e hdir hfe] at h
          exact Except.noConfusion h
        | ok d =>
          rw [loadAux_cons_okfile acc c cs d hdir hfe] at h
          rw [ih _ h, hasKey_dictInsert, exists_mem_cons]
          have hPc : (c.name = n ∧ c.isDir = true ∧ ∃ d2, c.estimatesFile = some (Except.ok d2)) ↔
              c.name = n := by
            constructor
            · rintro ⟨h1, -, -⟩
              exact h1
            · intro h1
              exact ⟨h1, hdir, d, hfe⟩
          rw [hPc]
          have hcomm : (n = c.name) ↔ (c.name = n) := eq_comm
          rw [hcomm]
          exact or_assoc

/-- A malformed statistics file anywhere in the walk forces the loader
into the error case. -/
theorem loadAux_error_of_malformed (cs : List Child) :
    ∀ acc : ResultSet,
      (∃ c ∈ cs, c.isDir = true ∧ ∃ e, c.estimatesFile = some (Except.error e)) →
      ∃ msg, loadAux acc cs = Except.error msg := by
  induction cs with
  | nil =>
    rintro acc ⟨c, hc, -⟩
    exact absurd hc (List.not_mem_nil c)
  | cons c0 cs ih =>
    rintro acc ⟨c, hc, hdir, e, hf⟩
    rcases List.mem_cons.mp hc with rfl | hmem
    · exact ⟨e, loadAux_cons_badfile acc c cs e hdir hf⟩
    · cases hdir0 : c0.isDir with
      | false =>
        simp only [loadAux_cons_notdir acc c0 cs hdir0]
        exact ih acc ⟨c, hmem, hdir, e, hf⟩
      | true =>
        cases hfe : c0.estimatesFile with
        | none =>
          simp only [loadAux_cons_nofile acc c0 cs hdir0 hfe]
          exact ih acc ⟨c, hmem, hdir, e, hf⟩
        | some ef =>
          cases ef with
          | error e0 => exact ⟨e0, loadAux_cons_badfile acc c0 cs e0 hdir0 hfe⟩
          | ok d =>
            simp only [loadAux_cons_okfile acc c0 cs d hdir0 hfe]
            exact ih _ ⟨c, hmem, hdir, e, hf⟩

/-- Reduction of the driver when the results directory is missing. -/
theorem runMain_missing (cs : List Child) :
    runMain { criterionDirExists := false, children := cs } = RunOutcome.exitMissingDir := by
  simp [runMain]

/-- Reduction of the driver when the loader aborts on a parse error. -/
theorem runMain_crash (cs : List Child) (e : String)
    (h : load_benchmark_results cs = Except.error e) :
    runMain { criterionDirExists := true, children := cs } = RunOutcome.crash e := by
  simp [runMain, h]

/-- Reduction of the driver when the loaded result set is empty. -/
theorem runMain_empty (cs : List Child) (rs : ResultSet)
    (h : load_benchmark_results cs = Except.ok rs) (hemp : rs.isEmpty = true) :
    runMain { criterionDirExists := true, children := cs } = RunOutcome.exitEmpty := by
  simp [runMain, h, hemp]

/-- Reduction of the driver on a non-empty result set: the verdict is
the AND of the startup flag and the latency flag. -/
theorem runMain_finished (cs : List Child) (rs : ResultSet)
    (h : load_benchmark_results cs = Except.ok rs) (hne : rs.isEmpty = false) :
    runMain { criterionDirExists := true, children := cs } =
      RunOutcome.finished ((analyze_startup_time rs).1 && (analyze_execution_latency rs).1) := by
  simp [runMain, h, hne]

/-! ## Claims -/

/-- C1: when the results directory exists and the loaded result set is
non-empty, the overall verdict (and hence the exit code) is exactly the
AND of the startup analyzer's pass flag and the latency analyzer's pass
flag; the memory and concurrency flags cannot affect it. -/
theorem overall_verdict_only_startup_and_latency (cs : List Child) (rs : ResultSet)
    (hload : load_benchmark_results cs = Except.ok rs) (hne : rs.isEmpty = false) :
    runMain { criterionDirExists := true, children := cs } =
      RunOutcome.finished ((analyze_startup_time rs).1 && (analyze_execution_latency rs).1) ∧
    exitCode (runMain { criterionDirExists := true, children := cs }) =
      (if (analyze_startup_time rs).1 && (analyze_execution_latency rs).1 then 0 else 1) := by
  have h1 := runMain_finished cs rs hload hne
  refine ⟨h1, ?_⟩
  rw [h1]
  rfl

/-- Witness for C1 on a concrete passing run. -/
theorem overall_verdict_only_startup_and_latency_witness :
    runMain { criterionDirExists := true, children := passChildren } =
      RunOutcome.finished
        ((analyze_startup_time passResults).1 && (analyze_execution_latency passResults).1) ∧
    exitCode (runMain { criterionDirExists := true, children := passChildren }) =
      (if (analyze_startup_time passResults).1 && (analyze_execution_latency passResults).1
        then 0 else 1) :=
  overall_verdict_only_startup_and_latency passChildren passResults rfl rfl

/-- C2: the startup and latency analyzers convert the nanosecond point
estimate to milliseconds by dividing by 1,000,000 and pass an entry
exactly when the millisecond value is strictly below the category
threshold (2000 ms startup, 100 ms latency), with the four concrete
cases from the specification. -/
theorem startup_latency_strict_threshold_check (rss rsl : ResultSet)
    (hs : (rss.filter (fun p => strContains p.1 "app_sandbox_startup")).isEmpty = false)
    (hl : (rsl.filter (fun p => strContains p.1 "tool_execution_latency")).isEmpty = false) :
    (∀ v : ℚ, nsToMs v = v / 1000000) ∧
    ((analyze_startup_time rss).1 = true ↔
      ∀ p ∈ rss.filter (fun p => strContains p.1 "app_sandbox_startup"),
        nsToMs (getMeanNs p.2) < 2000) ∧
    ((analyze_execution_latency rsl).1 = true ↔
      ∀ p ∈ rsl.filter (fun p => strContains p.1 "tool_execution_latency"),
        nsToMs (getMeanNs p.2) < 100) ∧
    (analyze_startup_time [("app_sandbox_startup", mkNs 2500000000)]).1 = false ∧
    (analyze_startup_time [("app_sandbox_startup", mkNs 1000000000)]).1 = true ∧
    (analyze_execution_latency [("tool_execution_latency", mkNs 50000000)]).1 = true ∧
    (analyze_execution_latency [("tool_execution_latency", mkNs 150000000)]).1 = false := by
  have hsub : strContains "app_sandbox_startup" "app_sandbox_startup" = true := by decide
  have hsub2 : strContains "tool_execution_latency" "tool_execution_latency" = true := by decide
  refine ⟨fun v => rfl, ?_, ?_, ?_, ?_, ?_, ?_⟩
  · rw [analyze_startup_time_eq rss hs]
    simp only [List.all_eq_true, analyzeEntryPass, THRESHOLDS, decide_eq_true_eq]
    simp only [List.mem_filter, Nat.cast_ofNat, and_imp, Prod.forall]
  · rw [analyze_execution_latency_eq rsl hl]
    simp only [List.all_eq_true, analyzeEntryPass, THRESHOLDS, decide_eq_true_eq]
    simp only [List.mem_filter, Nat.cast_ofNat, and_imp, Prod.forall]
  · simp only [analyze_startup_time, List.filter, hsub, List.isEmpty, List.foldl,
      analyzeEntryPass, nsToMs, getMeanNs, mkNs, THRESHOLDS, Option.getD]
    norm_num
  · simp only [analyze_startup_time, List.filter, hsub, List.isEmpty, List.foldl,
      analyzeEntryPass, nsToMs, getMeanNs, mkNs, THRESHOLDS, Option.getD]
    norm_num
  · simp only [analyze_execution_latency, List.filter, hsub2, List.isEmpty, List.foldl,
      analyzeEntryPass, nsToMs, getMeanNs, mkNs, THRESHOLDS, Option.getD]
    norm_num
  · simp only [analyze_execution_latency, List.filter, hsub2, List.isEmpty, List.foldl,
      analyzeEntryPass, nsToMs, getMeanNs, mkNs, THRESHOLDS, Option.getD]
    norm_num

/-- Witness for C2 on singleton result sets. -/
theorem startup_latency_strict_threshold_check_witness :
    (∀ v : ℚ, nsToMs v = v / 1000000) ∧
    ((analyze_startup_time [("app_sandbox_startup", mkNs 1000000000)]).1 = true ↔
      ∀ p ∈ [("app_sandbox_startup", mkNs 1000000000)].filter
          (fun p => strContains p.1 "app_sandbox_startup"),
        nsToMs (getMeanNs p.2) < 2000) ∧
    ((analyze_execution_latency [("tool_execution_latency", mkNs 50000000)]).1 = true ↔
      ∀ p ∈ [("tool_execution_latency", mkNs 50000000)].filter
          (fun p => strContains p.1 "tool_execution_latency"),
        nsToMs (getMeanNs p.2) < 100) ∧
    (analyze_startup_time [("app_sandbox_startup", mkNs 2500000000)]).1 = false ∧
    (analyze_startup_time [("app_sandbox_startup", mkNs 1000000000)]).1 = true ∧
    (analyze_execution_latency [("tool_execution_latency", mkNs 50000000)]).1 = true ∧
    (analyze_execution_latency [("tool_execution_latency", mkNs 150000000)]).1 = false :=
  startup_latency_strict_threshold_check _ _ (by decide) (by decide)

/-- C3: a missing results directory, or an empty loaded result set,
exits with code 1 before any analyzer runs; in the missing-directory
case the children are never enumerated (the outcome is the same for
every children list). -/
theorem missing_dir_or_empty_results_exit_one :
    (∀ cs : List Child,
      runMain { criterionDirExists := false, children := cs } = RunOutcome.exitMissingDir ∧
      exitCode (runMain { criterionDirExists := false, children := cs }) = 1) ∧
    (∀ (cs : List Child) (rs : ResultSet),
      load_benchmark_results cs = Except.ok rs → rs.isEmpty = true →
      runMain { criterionDirExists := true, children := cs } = RunOutcome.exitEmpty ∧
      exitCode (runMain { criterionDirExists := true, children := cs }) = 1) := by
  constructor
  · intro cs
    have h := runMain_missing cs
    exact ⟨h, by rw [h]; rfl⟩
  · intro cs rs hload hemp
    have h := runMain_empty cs rs hload hemp
    exact ⟨h, by rw [h]; rfl⟩

/-- Witness for C3: a missing directory whose (never-visited) child
would crash the loader, and an existing but empty directory. -/
theorem missing_dir_or_empty_results_exit_one_witness :
    (runMain { criterionDirExists := false, children := missChildren } =
        RunOutcome.exitMissingDir ∧
      exitCode (runMain { criterionDirExists := false, children := missChildren }) = 1) ∧
    (runMain { criterionDirExists := true, children := [] } = RunOutcome.exitEmpty ∧
      exitCode (runMain { criterionDirExists := true, children := [] }) = 1) :=
  ⟨missing_dir_or_empty_results_exit_one.1 missChildren,
   missing_dir_or_empty_results_exit_one.2 [] [] rfl rfl⟩

/-- C4: when zero loaded entries match a required category's substring,
that category's analyzer reports no data with a false pass flag, and the
run exits with code 1. -/
theorem absent_required_category_fails_run (cs : List Child) (rs : ResultSet)
    (hload : load_benchmark_results cs = Except.ok rs) :
    ((rs.filter (fun p => strContains p.1 "app_sandbox_startup")).isEmpty = true →
      analyze_startup_time rs = (false, "No startup benchmarks found") ∧
      exitCode (runMain { criterionDirExists := true, children := cs }) = 1) ∧
    ((rs.filter (fun p => strContains p.1 "tool_execution_latency")).isEmpty = true →
      analyze_execution_latency rs = (false, "No execution latency benchmarks found") ∧
      exitCode (runMain { criterionDirExists := true, children := cs }) = 1) := by
  constructor
  · intro hf
    have ha : analyze_startup_time rs = (false, "No startup benchmarks found") := by
      simp [analyze_startup_time, hf]
    refine ⟨ha, ?_⟩
    by_cases hemp : rs.isEmpty = true
    · rw [runMain_empty cs rs hload hemp]
      rfl
    · have hne : rs.isEmpty = false := by simpa using hemp
      rw [runMain_finished cs rs hload hne, ha]
      simp [exitCode]
  · intro hf
    have ha : analyze_execution_latency rs = (false, "No execution latency benchmarks found") := by
      simp [analyze_execution_latency, hf]
    refine ⟨ha, ?_⟩
    by_cases hemp : rs.isEmpty = true
    · rw [runMain_empty cs rs hload hemp]
      rfl
    · have hne : rs.isEmpty = false := by simpa using hemp
      rw [runMain_finished cs rs hload hne, ha]
      simp [exitCode]

/-- Witness for C4: a result set holding only a memory entry, so both
required categories are absent. -/
theorem absent_required_category_fails_run_witness :
    analyze_startup_time memOnlyResults = (false, "No startup benchmarks found") ∧
    exitCode (runMain { criterionDirExists := true, children := memOnlyChildren }) = 1 :=
  (absent_required_category_fails_run memOnlyChildren memOnlyResults rfl).1 (by decide)

/-- C5: a record lacking the `mean` object or the `point_estimate` field
defaults to 0 nanoseconds, hence 0 ms, which is below every positive
threshold, so the matching entry is reported PASS by both required
analyzers. -/
theorem missing_point_estimate_defaults_zero_pass (ns nl : String) (t : ℕ)
    (hs : strContains ns "app_sandbox_startup" = true)
    (hl : strContains nl "tool_execution_latency" = true)
    (ht : 0 < t) :
    getMeanNs { mean := none } = 0 ∧
    getMeanNs { mean := some { point_estimate := none } } = 0 ∧
    nsToMs (getMeanNs { mean := none }) < (t : ℚ) ∧
    (analyze_startup_time [(ns, { mean := none })]).1 = true ∧
    (analyze_execution_latency [(nl, { mean := some { point_estimate := none } })]).1 = true := by
  refine ⟨rfl, rfl, ?_, ?_, ?_⟩
  · have h0 : nsToMs (getMeanNs { mean := none }) = 0 := by norm_num [nsToMs, getMeanNs]
    rw [h0]
    exact_mod_cast ht
  · simp only [analyze_startup_time, List.filter, hs, List.isEmpty, List.foldl,
      analyzeEntryPass, nsToMs, getMeanNs, THRESHOLDS, Option.getD]
    norm_num
  · simp only [analyze_execution_latency, List.filter, hl, List.isEmpty, List.foldl,
      analyzeEntryPass, nsToMs, getMeanNs, THRESHOLDS, Option.getD]
    norm_num

/-- Witness for C5 at the 2000 threshold. -/
theorem missing_point_estimate_defaults_zero_pass_witness :
    getMeanNs { mean := none } = 0 ∧
    getMeanNs { mean := some { point_estimate := none } } = 0 ∧
    nsToMs (getMeanNs { mean := none }) < ((2000 : ℕ) : ℚ) ∧
    (analyze_startup_time [("app_sandbox_startup", { mean := none })]).1 = true ∧
    (analyze_execution_latency
      [("tool_execution_latency", { mean := some { point_estimate := none } })]).1 = true :=
  missing_point_estimate_defaults_zero_pass "app_sandbox_startup" "tool_execution_latency" 2000
    (by decide) (by decide) (by decide)

/-- C6: a successful loader run has an entry under name N exactly when
some immediate child named N is a directory whose statistics file exists
and parses; non-directories and directories without the file contribute
nothing and raise no error. -/
theorem loader_entry_iff_qualifying_child (cs : List Child) (rs : ResultSet) (n : String)
    (hload : load_benchmark_results cs = Except.ok rs) :
    hasKey rs n = true ↔
      ∃ c ∈ cs, c.name = n ∧ c.isDir = true ∧ ∃ d, c.estimatesFile = some (Except.ok d) := by
  have h := loadAux_hasKey cs [] rs n hload
  simpa [hasKey] using h

/-- Witness for C6: a directory with a parseable file yields its entry,
while a plain file child and an empty directory load without error and
contribute nothing. -/
theorem loader_entry_iff_qualifying_child_witness :
    hasKey [("app_sandbox_startup", mkNs 1)] "app_sandbox_startup" = true :=
  (loader_entry_iff_qualifying_child mixedChildren [("app_sandbox_startup", mkNs 1)]
      "app_sandbox_startup" rfl).mpr
    ⟨{ name := "app_sandbox_startup", isDir := true, estimatesFile := some (Except.ok (mkNs 1)) },
     List.mem_cons_self _ _, rfl, rfl, mkNs 1, rfl⟩

/-- C7: a present but malformed statistics file makes the loader
propagate the parse failure: no result set is ever produced and the run
terminates in the crash outcome, never reaching the analyzers. -/
theorem malformed_estimates_file_aborts_run (cs : List Child) (c : Child) (e : String)
    (hc : c ∈ cs) (hd : c.isDir = true) (hf : c.estimatesFile = some (Except.error e)) :
    (∀ rs : ResultSet, load_benchmark_results cs ≠ Except.ok rs) ∧
    ∃ msg, load_benchmark_results cs = Except.error msg ∧
      runMain { criterionDirExists := true, children := cs } = RunOutcome.crash msg := by
  obtain ⟨msg, hmsg⟩ := loadAux_error_of_malformed cs [] ⟨c, hc, hd, e, hf⟩
  have h2 : load_benchmark_results cs = Except.error msg := hmsg
  constructor
  · intro rs hok
    rw [h2] at hok
    exact Except.noConfusion hok
  · exact ⟨msg, h2, runMain_crash cs msg h2⟩

/-- Witness for C7: one directory with a malformed statistics file. -/
theorem malformed_estimates_file_aborts_run_witness :
    ∃ msg, load_benchmark_results badChildren = Except.error msg ∧
      runMain { criterionDirExists := true, children := badChildren } = RunOutcome.crash msg :=
  (malformed_estimates_file_aborts_run badChildren _ "Expecting value"
    (List.mem_cons_self _ _) rfl rfl).2

/-- C8: with at least one matching entry, the memory analyzer returns
pass with fixed explanatory text that never reads the data, and the
concurrency analyzer returns pass and one line per matching entry with
no threshold comparison. -/
theorem memory_and_concurrency_informational (rsm rsc : ResultSet)
    (hm : (rsm.filter (fun p => strContains p.1 "memory_overhead")).isEmpty = false)
    (hc : (rsc.filter (fun p => strContains p.1 "concurrent_operations")).isEmpty = false) :
    analyze_memory_overhead rsm =
      (true, "  Note: Memory overhead analysis requires manual measurement\n  Use system monitoring tools to measure actual memory usage\n  Target: <10% of host system") ∧
    (analyze_concurrent_performance rsc).1 = true ∧
    (analyze_concurrent_performance rsc).2 =
      String.intercalate "\n"
        ((rsc.filter (fun p => strContains p.1 "concurrent_operations")).map concLine) := by
  have hm' : ¬((rsm.filter (fun p => strContains p.1 "memory_overhead")).isEmpty = true) := by
    simp [hm]
  have hc' : ¬((rsc.filter (fun p => strContains p.1 "concurrent_operations")).isEmpty = true) := by
    simp [hc]
  refine ⟨?_, ?_, ?_⟩
  · simp only [analyze_memory_overhead]
    rw [if_neg hm']
    decide
  · simp only [analyze_concurrent_performance]
    rw [if_neg hc']
  · simp only [analyze_concurrent_performance]
    rw [if_neg hc']
    simp [foldl_conc_line]

/-- Witness for C8 on singleton result sets. -/
theorem memory_and_concurrency_informational_witness :
    analyze_memory_overhead [("memory_overhead_comparison", mkNs 123456789)] =
      (true, "  Note: Memory overhead analysis requires manual measurement\n  Use system monitoring tools to measure actual memory usage\n  Target: <10% of host system") ∧
    (analyze_concurrent_performance [("concurrent_operations_10", mkNs 987654321)]).1 = true ∧
    (analyze_concurrent_performance [("concurrent_operations_10", mkNs 987654321)]).2 =
      String.intercalate "\n"
        (([("concurrent_operations_10", mkNs 987654321)].filter
            (fun p => strContains p.1 "concurrent_operations")).map concLine) :=
  memory_and_concurrency_informational _ _ (by decide) (by decide)

/-- C9: the nanosecond-to-millisecond conversion used by the analyzers
is exactly inverted by multiplying back by 1,000,000. -/
theorem ns_ms_roundtrip (v : ℚ) : nsToMs v * 1000000 = v :=
  div_mul_cancel₀ v (by norm_num)

/-- C10: the memory analyzer's entire output depends only on whether
some benchmark name contains the memory substring: two result sets that
agree on that boolean get identical results, whatever their values. -/
theorem memory_analyzer_noninterference (rs1 rs2 : ResultSet)
    (h : rs1.any (fun p => strContains p.1 "memory_overhead") =
         rs2.any (fun p => strContains p.1 "memory_overhead")) :
    analyze_memory_overhead rs1 = analyze_memory_overhead rs2 := by
  simp only [analyze_memory_overhead]
  rw [filter_isEmpty_eq, filter_isEmpty_eq, h]

/-- Witness for C10: same benchmark name, wildly different values. -/
theorem memory_analyzer_noninterference_witness :
    analyze_memory_overhead [("memory_overhead_io", mkNs 1)] =
      analyze_memory_overhead [("memory_overhead_io", mkNs 999999999999)] :=
  memory_analyzer_noninterference _ _ (by decide)
